import Mathlib

/-!
Verification of the virtual-pet state machine in `SEP.py`.

The embedding mirrors the Python source: `clamp`, the `Pet` class fields,
the four gameplay actions (`feed`, `play`, `give_toy`, `give_medicine`),
and `tick`.  Randomness (the two `random.randint` draws, the 20% event
trigger and the uniform `random.choice` among the four events) is modelled
as an injected per-hour draw record `HourRand`; `Option (Fin 4)` is `none`
when `random.random() < EVENT_PROBABILITY` is false.  Console prints are
modelled as the optional terminal `Signal` an hour produces; they carry no
state.  All functions are total, as the Python methods raise no exception.
-/

namespace VirtualPet

/-- `MIN_LEVEL = 0` from the source. -/
def MIN_LEVEL : Int := 0

/-- `MAX_LEVEL = 100` from the source. -/
def MAX_LEVEL : Int := 100

/-- `clamp(value, low=MIN_LEVEL, high=MAX_LEVEL) = max(low, min(high, value))`. -/
def clamp (value : Int) (low : Int := MIN_LEVEL) (high : Int := MAX_LEVEL) : Int :=
  max low (min high value)

/-- One entry of the `RANDOM_EVENTS` table. -/
structure RandomEvent where
  name : String
  hunger_delta : Int
  happiness_delta : Int
deriving DecidableEq, Repr

/-- The fixed four-entry `RANDOM_EVENTS` table, in source order. -/
def RANDOM_EVENTS : List RandomEvent :=
  [⟨"Found a snack", -10, 0⟩,
   ⟨"Found a toy", 0, 10⟩,
   ⟨"Got sick", 15, -10⟩,
   ⟨"Took a nap", -5, 5⟩]

/-- The random draws one simulated hour of `tick` consumes:
`r1 = random.randint(*BASE_HUNGER_INCREASE)`,
`r2 = random.randint(*BASE_HAPPINESS_DECREASE)`, and the event choice
(`none` when `random.random() < EVENT_PROBABILITY` fails, otherwise the
index picked by `random.choice(RANDOM_EVENTS)`). -/
structure HourRand where
  r1 : Int
  r2 : Int
  evt : Option (Fin RANDOM_EVENTS.length)
deriving DecidableEq

/-- The `Pet` state: `name`, `hunger`, `happiness`, `age_hours`, `alive`. -/
structure Pet where
  name : String
  hunger : Int
  happiness : Int
  age_hours : Nat
  alive : Bool
deriving DecidableEq, Repr

/-- `Pet.__init__`: hunger 50, happiness 50, age 0, alive. -/
def Pet.init (name : String) : Pet :=
  { name := name, hunger := 50, happiness := 50, age_hours := 0, alive := true }

/-- `feed`: `hunger = clamp(hunger - 15); happiness = clamp(happiness - 2)`. -/
def Pet.feed (p : Pet) : Pet :=
  { p with hunger := clamp (p.hunger - 15), happiness := clamp (p.happiness - 2) }

/-- `play`: `happiness = clamp(happiness + 12); hunger = clamp(hunger + 6)`. -/
def Pet.play (p : Pet) : Pet :=
  { p with happiness := clamp (p.happiness + 12), hunger := clamp (p.hunger + 6) }

/-- `give_toy`: `happiness = clamp(happiness + 8); hunger = clamp(hunger + 2)`. -/
def Pet.give_toy (p : Pet) : Pet :=
  { p with happiness := clamp (p.happiness + 8), hunger := clamp (p.hunger + 2) }

/-- `give_medicine`: `hunger = clamp(hunger - 8); happiness = clamp(happiness + 3)`. -/
def Pet.give_medicine (p : Pet) : Pet :=
  { p with hunger := clamp (p.hunger - 8), happiness := clamp (p.happiness + 3) }

/-- The terminal console message an hour may emit: `starved` for
"became too hungry", `tooSad` for "became too sad". -/
inductive Signal where
  | starved
  | tooSad
deriving DecidableEq, Repr

/-- Steps 1-3 of an hour of `tick`: `age_hours += 1`,
`hunger = clamp(hunger + r1)`, `happiness = clamp(happiness - r2)`. -/
def baseAdjust (p : Pet) (r1 r2 : Int) : Pet :=
  { p with
    age_hours := p.age_hours + 1,
    hunger := clamp (p.hunger + r1),
    happiness := clamp (p.happiness - r2) }

/-- Step 4: when the 20% draw triggered, apply the chosen event's deltas
(clamped); otherwise no change. -/
def applyEvent (p : Pet) : Option (Fin RANDOM_EVENTS.length) → Pet
  | none => p
  | some i =>
    let evt := RANDOM_EVENTS.get i
    { p with
      hunger := clamp (p.hunger + evt.hunger_delta),
      happiness := clamp (p.happiness + evt.happiness_delta) }

/-- Step 5: `if hunger > 80: happiness = clamp(happiness - 5)`. -/
def hungryPenalty (p : Pet) : Pet :=
  if p.hunger > 80 then { p with happiness := clamp (p.happiness - 5) } else p

/-- Step 6, the game-over checks: `if hunger >= MAX_LEVEL` then die with the
"too hungry" message, `elif happiness <= MIN_LEVEL` then die with the
"too sad" message, else unchanged. -/
def terminalCheck (p : Pet) : Pet × Option Signal :=
  if p.hunger ≥ MAX_LEVEL then ({ p with alive := false }, some Signal.starved)
  else if p.happiness ≤ MIN_LEVEL then ({ p with alive := false }, some Signal.tooSad)
  else (p, none)

/-- Steps 1-5 of an hour in source order: base adjustments, the optional
random event, then the `hunger > 80` penalty — the state the game-over
checks inspect. -/
def preTerminal (p : Pet) (r : HourRand) : Pet :=
  hungryPenalty (applyEvent (baseAdjust p r.r1 r.r2) r.evt)

/-- One iteration of the `for _ in range(hours)` loop body of `tick`:
the `if not self.alive: return` guard, then steps 1-6 in source order. -/
def tickHour (p : Pet) (r : HourRand) : Pet × Option Signal :=
  if p.alive then terminalCheck (preTerminal p r)
  else (p, none)

/-- Running the loop body of `tick` for `n` hours, hour `i` consuming the
injected draws `rand i`.  (The Python early `return` on death is
state-equivalent to the guard inside `tickHour`.) -/
def tickN (p : Pet) (n : Nat) (rand : Nat → HourRand) : Pet :=
  (List.range n).foldl (fun q i => (tickHour q (rand i)).1) p

/-- `tick(self, hours=1)`: `for _ in range(hours)` runs the loop body
`max hours 0` times, i.e. `hours.toNat` times. -/
def Pet.tick (p : Pet) (hours : Int := 1) (rand : Nat → HourRand) : Pet :=
  tickN p hours.toNat rand

/-- The operations the session controller can invoke on a pet. -/
inductive Op where
  | feed
  | play
  | give_toy
  | give_medicine
  | tick (hours : Int) (rand : Nat → HourRand)

/-- Dispatch an operation to the corresponding `Pet` method. -/
def applyOp (p : Pet) : Op → Pet
  | .feed => p.feed
  | .play => p.play
  | .give_toy => p.give_toy
  | .give_medicine => p.give_medicine
  | .tick hours rand => p.tick hours rand

/-- Pet states reachable from a freshly constructed pet by any sequence of
`feed`/`play`/`give_toy`/`give_medicine`/`tick` calls. -/
inductive Reachable : Pet → Prop where
  | init (name : String) : Reachable (Pet.init name)
  | step {p : Pet} (op : Op) : Reachable p → Reachable (applyOp p op)

/-- The documented range invariant on `hunger` and `happiness`. -/
def Inv (p : Pet) : Prop :=
  0 ≤ p.hunger ∧ p.hunger ≤ 100 ∧ 0 ≤ p.happiness ∧ p.happiness ≤ 100

/-! ### Basic lemmas about `clamp` and the per-hour stages -/

lemma clamp_mem (v : Int) : 0 ≤ clamp v ∧ clamp v ≤ 100 := by
  unfold clamp MIN_LEVEL MAX_LEVEL
  exact ⟨le_max_left 0 _, max_le (by norm_num) (min_le_left _ _)⟩

@[simp] lemma baseAdjust_age (p : Pet) (r1 r2 : Int) :
    (baseAdjust p r1 r2).age_hours = p.age_hours + 1 := rfl

@[simp] lemma baseAdjust_alive (p : Pet) (r1 r2 : Int) :
    (baseAdjust p r1 r2).alive = p.alive := rfl

@[simp] lemma baseAdjust_name (p : Pet) (r1 r2 : Int) :
    (baseAdjust p r1 r2).name = p.name := rfl

@[simp] lemma applyEvent_age (p : Pet) (evt : Option (Fin RANDOM_EVENTS.length)) :
    (applyEvent p evt).age_hours = p.age_hours := by
  cases evt <;> rfl

@[simp] lemma applyEvent_alive (p : Pet) (evt : Option (Fin RANDOM_EVENTS.length)) :
    (applyEvent p evt).alive = p.alive := by
  cases evt <;> rfl

@[simp] lemma hungryPenalty_hunger (p : Pet) :
    (hungryPenalty p).hunger = p.hunger := by
  unfold hungryPenalty
  split <;> rfl

@[simp] lemma hungryPenalty_age (p : Pet) :
    (hungryPenalty p).age_hours = p.age_hours := by
  unfold hungryPenalty
  split <;> rfl

@[simp] lemma hungryPenalty_alive (p : Pet) :
    (hungryPenalty p).alive = p.alive := by
  unfold hungryPenalty
  split <;> rfl

@[simp] lemma preTerminal_age (p : Pet) (r : HourRand) :
    (preTerminal p r).age_hours = p.age_hours + 1 := by
  simp [preTerminal]

@[simp] lemma preTerminal_alive (p : Pet) (r : HourRand) :
    (preTerminal p r).alive = p.alive := by
  simp [preTerminal]

@[simp] lemma terminalCheck_fst_hunger (p : Pet) :
    ((terminalCheck p).1).hunger = p.hunger := by
  unfold terminalCheck
  split_ifs <;> rfl

@[simp] lemma terminalCheck_fst_happiness (p : Pet) :
    ((terminalCheck p).1).happiness = p.happiness := by
  unfold terminalCheck
  split_ifs <;> rfl

@[simp] lemma terminalCheck_fst_age (p : Pet) :
    ((terminalCheck p).1).age_hours = p.age_hours := by
  unfold terminalCheck
  split_ifs <;> rfl

/-! ### Range-invariant lemmas -/

lemma inv_feed (p : Pet) : Inv p.feed :=
  ⟨(clamp_mem _).1, (clamp_mem _).2, (clamp_mem _).1, (clamp_mem _).2⟩

lemma inv_play (p : Pet) : Inv p.play :=
  ⟨(clamp_mem _).1, (clamp_mem _).2, (clamp_mem _).1, (clamp_mem _).2⟩

lemma inv_give_toy (p : Pet) : Inv p.give_toy :=
  ⟨(clamp_mem _).1, (clamp_mem _).2, (clamp_mem _).1, (clamp_mem _).2⟩

lemma inv_give_medicine (p : Pet) : Inv p.give_medicine :=
  ⟨(clamp_mem _).1, (clamp_mem _).2, (clamp_mem _).1, (clamp_mem _).2⟩

lemma inv_baseAdjust (p : Pet) (r1 r2 : Int) : Inv (baseAdjust p r1 r2) :=
  ⟨(clamp_mem _).1, (clamp_mem _).2, (clamp_mem _).1, (clamp_mem _).2⟩

lemma inv_applyEvent {p : Pet} (h : Inv p) (evt : Option (Fin RANDOM_EVENTS.length)) :
    Inv (applyEvent p evt) := by
  cases evt with
  | none => exact h
  | some i => exact ⟨(clamp_mem _).1, (clamp_mem _).2, (clamp_mem _).1, (clamp_mem _).2⟩

lemma inv_hungryPenalty {p : Pet} (h : Inv p) : Inv (hungryPenalty p) := by
  unfold hungryPenalty
  split
  · exact ⟨h.1, h.2.1, (clamp_mem _).1, (clamp_mem _).2⟩
  · exact h

lemma inv_preTerminal (p : Pet) (r : HourRand) : Inv (preTerminal p r) :=
  inv_hungryPenalty (inv_applyEvent (inv_baseAdjust p r.r1 r.r2) r.evt)

lemma inv_terminalCheck {p : Pet} (h : Inv p) : Inv (terminalCheck p).1 := by
  unfold terminalCheck
  split_ifs <;> exact h

lemma inv_tickHour {p : Pet} (h : Inv p) (r : HourRand) : Inv (tickHour p r).1 := by
  cases hal : p.alive
  · simpa [tickHour, hal] using h
  · simpa [tickHour, hal] using inv_terminalCheck (inv_preTerminal p r)

/-! ### Lemmas about the hour loop -/

lemma tickN_zero (p : Pet) (rand : Nat → HourRand) : tickN p 0 rand = p := rfl

lemma tickN_succ (p : Pet) (n : Nat) (rand : Nat → HourRand) :
    tickN p (n + 1) rand = (tickHour (tickN p n rand) (rand n)).1 := by
  simp [tickN, List.range_succ]

lemma tickHour_dead {p : Pet} (h : p.alive = false) (r : HourRand) :
    tickHour p r = (p, none) := by
  simp [tickHour, h]

lemma tickN_dead {p : Pet} (h : p.alive = false) (n : Nat) (rand : Nat → HourRand) :
    tickN p n rand = p := by
  induction n with
  | zero => rfl
  | succ n ih => rw [tickN_succ, ih, tickHour_dead h]

lemma tickHour_alive_mono {p : Pet} {r : HourRand} (h : ((tickHour p r).1).alive = true) :
    p.alive = true := by
  cases hal : p.alive
  · rw [tickHour_dead hal] at h
    exact absurd h (by simp [hal])
  · rfl

lemma tickHour_fst_age (p : Pet) (r : HourRand) :
    ((tickHour p r).1).age_hours =
      if p.alive then p.age_hours + 1 else p.age_hours := by
  cases hal : p.alive <;> simp [tickHour, hal]

lemma tickN_alive_mono {p : Pet} {rand : Nat → HourRand} :
    ∀ n : Nat, (tickN p n rand).alive = true → p.alive = true := by
  intro n
  induction n with
  | zero => exact fun h => h
  | succ n ih =>
    intro h
    rw [tickN_succ] at h
    exact ih (tickHour_alive_mono h)

lemma tickN_alive_of_le {p : Pet} {rand : Nat → HourRand} {m : Nat} :
    ∀ n : Nat, m ≤ n → (tickN p n rand).alive = true → (tickN p m rand).alive = true := by
  intro n
  induction n with
  | zero => intro hm h; rw [Nat.le_zero.mp hm]; exact h
  | succ n ih =>
    intro hm h
    rw [tickN_succ] at h
    rcases Nat.lt_succ_iff_lt_or_eq.mp (Nat.lt_succ_of_le hm) with hlt | heq
    · exact ih (Nat.lt_succ_iff.mp hlt) (tickHour_alive_mono h)
    · rw [heq, tickN_succ]
      exact h

lemma tickN_age_of_alive {p : Pet} {rand : Nat → HourRand} :
    ∀ n : Nat, (tickN p n rand).alive = true →
      (tickN p n rand).age_hours = p.age_hours + n := by
  intro n
  induction n with
  | zero => intro _; simp [tickN_zero]
  | succ n ih =>
    intro h
    have hn : (tickN p n rand).alive = true := by
      rw [tickN_succ] at h
      exact tickHour_alive_mono h
    rw [tickN_succ, tickHour_fst_age, hn, if_pos rfl, ih hn, Nat.add_assoc]

lemma tickN_age_min {p : Pet} {rand : Nat → HourRand} {h : Nat}
    (hdead : (tickN p h rand).alive = false)
    (hbefore : ∀ k, k < h → (tickN p k rand).alive = true) :
    ∀ n : Nat, (tickN p n rand).age_hours = p.age_hours + min n h := by
  intro n
  induction n with
  | zero => simp [tickN_zero]
  | succ n ih =>
    rw [tickN_succ, tickHour_fst_age]
    by_cases hlt : n < h
    · rw [hbefore n hlt, if_pos rfl, ih]
      have h1 : min n h = n := Nat.min_eq_left (Nat.le_of_lt hlt)
      have h2 : min (n + 1) h = n + 1 := Nat.min_eq_left (Nat.succ_le_of_lt hlt)
      omega
    · have hge : h ≤ n := Nat.le_of_not_lt hlt
      have hdn : (tickN p n rand).alive = false := by
        cases hal : (tickN p n rand).alive
        · rfl
        · exact absurd (tickN_alive_of_le n hge hal) (by rw [hdead]; simp)
      rw [hdn, if_neg (by simp), ih]
      have h1 : min n h = h := Nat.min_eq_right hge
      have h2 : min (n + 1) h = h := Nat.min_eq_right (Nat.le_succ_of_le hge)
      omega

lemma inv_tickN {p : Pet} (h : Inv p) (n : Nat) (rand : Nat → HourRand) :
    Inv (tickN p n rand) := by
  induction n with
  | zero => exact h
  | succ n ih =>
    rw [tickN_succ]
    exact inv_tickHour ih (rand n)

lemma inv_applyOp {p : Pet} (h : Inv p) (op : Op) : Inv (applyOp p op) := by
  cases op with
  | feed => exact inv_feed p
  | play => exact inv_play p
  | give_toy => exact inv_give_toy p
  | give_medicine => exact inv_give_medicine p
  | tick hours rand => exact inv_tickN h hours.toNat rand

/-! ### Claim theorems -/

/-- C1 (counterexample): the claim fails — a pet that died of sadness after
10 hours (hunger 80) still has its hunger changed by a further `feed()`,
because the action methods carry no `alive` guard in the source. -/
theorem c1_counterexample :
    (tickN (Pet.init "Rex") 10 (fun _ => ⟨3, 5, none⟩)).alive = false ∧
    (Pet.feed (tickN (Pet.init "Rex") 10 (fun _ => ⟨3, 5, none⟩))).hunger ≠
      (tickN (Pet.init "Rex") 10 (fun _ => ⟨3, 5, none⟩)).hunger := by
  decide

/-- C1 (amended): once `alive` is false, `tick(hours)` leaves the whole state
unchanged and raises no exception; `feed`/`play`/`give_toy`/`give_medicine`
raise no exception and leave `age_hours` and `alive` unchanged, though they
still apply their clamped hunger/happiness deltas (the session controller,
not the Pet, gates them on `alive`). -/
theorem c1_post_terminal_amended (p : Pet) (h : p.alive = false) :
    (∀ (hours : Int) (rand : Nat → HourRand), p.tick hours rand = p)
    ∧ (p.feed.age_hours = p.age_hours ∧ p.feed.alive = false)
    ∧ (p.play.age_hours = p.age_hours ∧ p.play.alive = false)
    ∧ (p.give_toy.age_hours = p.age_hours ∧ p.give_toy.alive = false)
    ∧ (p.give_medicine.age_hours = p.age_hours ∧ p.give_medicine.alive = false) :=
  ⟨fun hours rand => tickN_dead h hours.toNat rand,
   ⟨rfl, h⟩, ⟨rfl, h⟩, ⟨rfl, h⟩, ⟨rfl, h⟩⟩

/-- C1 (witness): the amended theorem applied to a concrete dead pet. -/
theorem c1_post_terminal_amended_witness :
    Pet.tick ⟨"Rex", 80, 0, 10, false⟩ 5 (fun _ => ⟨4, 2, none⟩) = ⟨"Rex", 80, 0, 10, false⟩
    ∧ (Pet.feed ⟨"Rex", 80, 0, 10, false⟩).age_hours = 10 :=
  ⟨(c1_post_terminal_amended ⟨"Rex", 80, 0, 10, false⟩ rfl).1 5 (fun _ => ⟨4, 2, none⟩),
   (c1_post_terminal_amended ⟨"Rex", 80, 0, 10, false⟩ rfl).2.1.1⟩

/-- C2: on every reachable pet state, hunger and happiness lie in `[0, 100]`;
every operation re-establishes the bounds because every write goes through
`clamp`. -/
theorem c2_range_invariant (p : Pet) (h : Reachable p) :
    0 ≤ p.hunger ∧ p.hunger ≤ 100 ∧ 0 ≤ p.happiness ∧ p.happiness ≤ 100 := by
  induction h with
  | init name => exact ⟨by norm_num [Pet.init], by norm_num [Pet.init],
      by norm_num [Pet.init], by norm_num [Pet.init]⟩
  | step op hp ih => exact inv_applyOp ih op

/-- C2 (witness): the invariant theorem applied to the state reached by
`feed()` followed by `tick(2)` from a fresh pet. -/
theorem c2_range_invariant_witness :
    0 ≤ (applyOp (applyOp (Pet.init "Kiki") Op.feed) (Op.tick 2 (fun _ => ⟨5, 3, none⟩))).hunger
    ∧ (applyOp (applyOp (Pet.init "Kiki") Op.feed) (Op.tick 2 (fun _ => ⟨5, 3, none⟩))).hunger ≤ 100
    ∧ 0 ≤ (applyOp (applyOp (Pet.init "Kiki") Op.feed) (Op.tick 2 (fun _ => ⟨5, 3, none⟩))).happiness
    ∧ (applyOp (applyOp (Pet.init "Kiki") Op.feed) (Op.tick 2 (fun _ => ⟨5, 3, none⟩))).happiness ≤ 100 :=
  c2_range_invariant _
    (Reachable.step (Op.tick 2 (fun _ => ⟨5, 3, none⟩)) (Reachable.step Op.feed (Reachable.init "Kiki")))

/-- C3 (counterexample): the claim fails — `tick(0)` silently performs zero
loop iterations and returns the state unchanged (the embedding is a total
function, mirroring that the Python method raises nothing), instead of
failing fast with an InvalidArgument error. -/
theorem c3_counterexample :
    Pet.tick (Pet.init "Momo") 0 (fun _ => ⟨5, 3, none⟩) = Pet.init "Momo" := rfl

/-- C3 (amended): calling `tick(hours)` with `hours < 1` is a silent no-op —
`range(hours)` is empty, so the state is returned unchanged and no error is
raised; the InvalidArgument validation the spec recommends is not
implemented. -/
theorem c3_nonpositive_tick_noop (p : Pet) (hours : Int) (rand : Nat → HourRand)
    (h : hours < 1) : p.tick hours rand = p := by
  have h0 : hours.toNat = 0 := Int.toNat_eq_zero.mpr (by omega)
  rw [Pet.tick, h0]
  exact tickN_zero p rand

/-- C3 (witness): the amended theorem applied at `hours = -3`. -/
theorem c3_nonpositive_tick_noop_witness :
    (-3 : Int) < 1 ∧ Pet.tick (Pet.init "Momo") (-3) (fun _ => ⟨5, 3, none⟩) = Pet.init "Momo" :=
  ⟨by decide, c3_nonpositive_tick_noop (Pet.init "Momo") (-3) (fun _ => ⟨5, 3, none⟩) (by decide)⟩

/-- C4: for positive `hours`, `tick` raises `age_hours` by exactly `hours`
when the pet is still alive at the end, and by exactly
`min hours h` when `h` is the hour at which the terminal transition occurred
(the terminal hour itself counted, since `age_hours += 1` precedes the
game-over checks). -/
theorem c4_tick_age (p : Pet) (hours : Int) (rand : Nat → HourRand) (hpos : 1 ≤ hours) :
    ((p.tick hours rand).alive = true →
      (p.tick hours rand).age_hours = p.age_hours + hours.toNat)
    ∧ (∀ h : Nat, (tickN p h rand).alive = false →
        (∀ k, k < h → (tickN p k rand).alive = true) →
        (p.tick hours rand).age_hours = p.age_hours + min hours.toNat h) :=
  ⟨fun hal => tickN_age_of_alive hours.toNat hal,
   fun _ hdead hbefore => tickN_age_min hdead hbefore hours.toNat⟩

/-- C4 (witness): two surviving hours from a fresh pet advance `age_hours`
from 0 to 2. -/
theorem c4_tick_age_witness :
    (1 : Int) ≤ 2
    ∧ (Pet.tick (Pet.init "Uli") 2 (fun _ => ⟨5, 3, none⟩)).age_hours =
        (Pet.init "Uli").age_hours + (2 : Int).toNat :=
  ⟨by decide, (c4_tick_age (Pet.init "Uli") 2 (fun _ => ⟨5, 3, none⟩) (by decide)).1 (by decide)⟩

/-- C5: within an hour, the game-over checks inspect the post-adjustment
state `preTerminal`: hunger at the (clamped) maximum 100 kills the pet with
the "starved" signal, taking priority over the happiness check; otherwise
happiness at the (clamped) minimum 0 kills it with the "too sad" signal; and
once dead, all remaining hours leave the state untouched. -/
theorem c5_terminal_checks (p : Pet) (r : HourRand) (ha : p.alive = true) :
    ((preTerminal p r).hunger = 100 →
      tickHour p r = ({ preTerminal p r with alive := false }, some Signal.starved))
    ∧ ((preTerminal p r).hunger ≠ 100 → (preTerminal p r).happiness = 0 →
      tickHour p r = ({ preTerminal p r with alive := false }, some Signal.tooSad))
    ∧ (((tickHour p r).1).alive = false →
        ∀ (n : Nat) (rand2 : Nat → HourRand), tickN ((tickHour p r).1) n rand2 = (tickHour p r).1) := by
  have hq := inv_preTerminal p r
  refine ⟨?_, ?_, ?_⟩
  · intro h100
    simp only [tickHour, ha, if_true]
    unfold terminalCheck
    rw [if_pos (by rw [h100]; norm_num [MAX_LEVEL])]
  · intro hne h0
    simp only [tickHour, ha, if_true]
    unfold terminalCheck
    rw [if_neg (by unfold MAX_LEVEL; rcases hq with ⟨_, h2, _, _⟩; omega),
      if_pos (by rw [h0]; norm_num [MIN_LEVEL])]
  · intro hdead n rand2
    exact tickN_dead hdead n rand2

/-- C5 (witness): a pet at hunger 95 with draw `r1 = 5` reaches the clamped
maximum and the hour ends with the "starved" terminal transition. -/
theorem c5_terminal_checks_witness :
    (preTerminal ⟨"Tib", 95, 50, 0, true⟩ ⟨5, 3, none⟩).hunger = 100
    ∧ tickHour ⟨"Tib", 95, 50, 0, true⟩ ⟨5, 3, none⟩ =
        ({ preTerminal ⟨"Tib", 95, 50, 0, true⟩ ⟨5, 3, none⟩ with alive := false },
          some Signal.starved) :=
  ⟨by decide, (c5_terminal_checks ⟨"Tib", 95, 50, 0, true⟩ ⟨5, 3, none⟩ rfl).1 (by decide)⟩

/-- C6: with injected draws `R1 = 5`, `R2 = 3` and no event triggered, one
`tick(1)` from hunger 50 / happiness 50 yields hunger 55, happiness 47,
still alive. -/
theorem c6_deterministic_tick :
    (Pet.tick (Pet.init "Pixel") 1 (fun _ => ⟨5, 3, none⟩)).hunger = 55
    ∧ (Pet.tick (Pet.init "Pixel") 1 (fun _ => ⟨5, 3, none⟩)).happiness = 47
    ∧ (Pet.tick (Pet.init "Pixel") 1 (fun _ => ⟨5, 3, none⟩)).alive = true := by
  decide

/-- C7: during an alive hour, the random event's deltas are already included
in the state the `hunger > 80` check inspects, and exactly when that
post-event hunger exceeds 80 the hour's final happiness is the clamped
5-point penalty of the post-event happiness (the terminal check never alters
hunger or happiness). -/
theorem c7_event_before_penalty (p : Pet) (r : HourRand) (ha : p.alive = true) :
    ((tickHour p r).1.hunger = (applyEvent (baseAdjust p r.r1 r.r2) r.evt).hunger)
    ∧ (80 < (applyEvent (baseAdjust p r.r1 r.r2) r.evt).hunger →
        (tickHour p r).1.happiness =
          clamp ((applyEvent (baseAdjust p r.r1 r.r2) r.evt).happiness - 5))
    ∧ ((applyEvent (baseAdjust p r.r1 r.r2) r.evt).hunger ≤ 80 →
        (tickHour p r).1.happiness = (applyEvent (baseAdjust p r.r1 r.r2) r.evt).happiness) := by
  refine ⟨?_, ?_, ?_⟩
  · simp [tickHour, ha, preTerminal]
  · intro h80
    simp only [tickHour, ha, if_true, terminalCheck_fst_happiness, preTerminal]
    unfold hungryPenalty
    rw [if_pos h80]
  · intro h80
    simp only [tickHour, ha, if_true, terminalCheck_fst_happiness, preTerminal]
    unfold hungryPenalty
    rw [if_neg (not_lt.mpr h80)]

/-- C7 (witness): the "Got sick" event (+15 hunger) pushes a pet from base
hunger 75 to 90, so the too-hungry penalty fires on the post-event
happiness. -/
theorem c7_event_before_penalty_witness :
    80 < (applyEvent (baseAdjust ⟨"Nia", 70, 60, 0, true⟩ 5 3) (some ⟨2, by decide⟩)).hunger
    ∧ (tickHour ⟨"Nia", 70, 60, 0, true⟩ ⟨5, 3, some ⟨2, by decide⟩⟩).1.happiness =
        clamp ((applyEvent (baseAdjust ⟨"Nia", 70, 60, 0, true⟩ 5 3) (some ⟨2, by decide⟩)).happiness - 5) :=
  ⟨by decide,
   (c7_event_before_penalty ⟨"Nia", 70, 60, 0, true⟩ ⟨5, 3, some ⟨2, by decide⟩⟩ rfl).2.1 (by decide)⟩

/-- C8: `feed()` sets hunger to `clamp(hunger - 15)` and happiness to
`clamp(happiness - 2)`; at hunger 10 the result is clamped to 0 rather than
negative, and with happiness in `[2, 100]` the happiness drop is exactly 2. -/
theorem c8_feed (p : Pet) :
    (p.feed.hunger = clamp (p.hunger - 15) ∧ p.feed.happiness = clamp (p.happiness - 2))
    ∧ (p.hunger = 10 → p.feed.hunger = 0)
    ∧ (p.hunger = 10 → 2 ≤ p.happiness → p.happiness ≤ 100 →
        p.feed.happiness = p.happiness - 2) := by
  refine ⟨⟨rfl, rfl⟩, ?_, ?_⟩
  · intro h10
    show clamp (p.hunger - 15) = 0
    rw [h10]
    decide
  · intro _ h2 h100
    show clamp (p.happiness - 2) = p.happiness - 2
    unfold clamp MIN_LEVEL MAX_LEVEL
    rw [min_eq_right (by omega), max_eq_right (by omega)]

/-- C8 (witness): feeding a pet at hunger 10 and happiness 50. -/
theorem c8_feed_witness :
    (Pet.feed ⟨"Olo", 10, 50, 0, true⟩).hunger = 0
    ∧ (Pet.feed ⟨"Olo", 10, 50, 0, true⟩).happiness = 50 - 2 :=
  ⟨(c8_feed ⟨"Olo", 10, 50, 0, true⟩).2.1 rfl,
   (c8_feed ⟨"Olo", 10, 50, 0, true⟩).2.2 rfl (by decide) (by decide)⟩

/-- C9: GameOver is absorbing — no operation turns `alive` from false back
to true; the four action methods never touch `alive` at all; and an hour of
`tick` kills the pet only when the post-adjustment state has hunger at the
maximum or happiness at the minimum. -/
theorem c9_gameover_absorbing (p : Pet) (op : Op) (r : HourRand) :
    ((applyOp p op).alive = true → p.alive = true)
    ∧ (p.feed.alive = p.alive ∧ p.play.alive = p.alive
        ∧ p.give_toy.alive = p.alive ∧ p.give_medicine.alive = p.alive)
    ∧ (p.alive = true → ((tickHour p r).1).alive = false →
        100 ≤ (preTerminal p r).hunger ∨ (preTerminal p r).happiness ≤ 0) := by
  refine ⟨?_, ⟨rfl, rfl, rfl, rfl⟩, ?_⟩
  · cases op with
    | feed => exact fun h => h
    | play => exact fun h => h
    | give_toy => exact fun h => h
    | give_medicine => exact fun h => h
    | tick hours rand => exact fun h => tickN_alive_mono hours.toNat h
  · intro ha hdead
    rw [tickHour, ha, if_pos rfl] at hdead
    unfold terminalCheck MAX_LEVEL MIN_LEVEL at hdead
    split_ifs at hdead with h1 h2
    · exact Or.inl h1
    · exact Or.inr h2
    · rw [preTerminal_alive] at hdead
      rw [ha] at hdead
      exact absurd hdead (by simp)

/-- C9 (witness): a pet at hunger 95 dies this hour, and indeed the
post-adjustment hunger reached the maximum. -/
theorem c9_gameover_absorbing_witness :
    100 ≤ (preTerminal ⟨"Zur", 95, 50, 0, true⟩ ⟨5, 3, none⟩).hunger
    ∨ (preTerminal ⟨"Zur", 95, 50, 0, true⟩ ⟨5, 3, none⟩).happiness ≤ 0 :=
  (c9_gameover_absorbing ⟨"Zur", 95, 50, 0, true⟩ Op.feed ⟨5, 3, none⟩).2.2 rfl (by decide)

/-- C10: the four action methods update only `hunger` and `happiness`;
`name`, `age_hours` and `alive` pass through untouched, for every pet state,
alive or not. -/
theorem c10_actions_frame (p : Pet) :
    (p.feed.name = p.name ∧ p.feed.age_hours = p.age_hours ∧ p.feed.alive = p.alive)
    ∧ (p.play.name = p.name ∧ p.play.age_hours = p.age_hours ∧ p.play.alive = p.alive)
    ∧ (p.give_toy.name = p.name ∧ p.give_toy.age_hours = p.age_hours
        ∧ p.give_toy.alive = p.alive)
    ∧ (p.give_medicine.name = p.name ∧ p.give_medicine.age_hours = p.age_hours
        ∧ p.give_medicine.alive = p.alive) :=
  ⟨⟨rfl, rfl, rfl⟩, ⟨rfl, rfl, rfl⟩, ⟨rfl, rfl, rfl⟩, ⟨rfl, rfl, rfl⟩⟩

end VirtualPet
